import Mathlib

/-!
Shallow embedding of the bcit-ltc `daggerverse` Dagger modules, centred on
`pipeline-manager/src/pipeline_manager/main.py`,
`helm-oci-release/src/helm_oci_release/main.py` and
`chart-updater/src/chart_updater/main.py`.

Each Python method is translated into a pure Lean function.  Object attributes
(`self.environment`, `self.version`, `self.tags`, `self.current_date_timestamp`)
become fields of an explicit state record that the stage functions thread.
Container side effects (docker publish, yq edits, git commit, helm push) are
recorded as an effect trace; exceptions become `Except` errors; `datetime.now()`
becomes an explicit clock sampled once per call, indexed by a call counter.
-/

/-- Embeds the `Environment` enum of `pipeline_manager/main.py`. -/
inductive Environment where
  | stable
  | latest
  | review
  | local
  | latestOrStable
  | ci
  | none
  deriving DecidableEq, Repr

/-- Embeds `Environment.<MEMBER>.value` (the string payload of each enum member). -/
def Environment.value : Environment → String
  | .stable => "stable"
  | .latest => "latest"
  | .review => "review"
  | .local => "local"
  | .latestOrStable => "latest_or_stable"
  | .ci => "ci"
  | .none => "none"

/-- Parsed JSON result of the semantic-release oracle: the fields
`last_release` and `next_release` read by `run_semantic_release`.
Python truthiness of a string is emptiness, so `next_release` is
"truthy" exactly when it is a non-empty string. -/
structure SemanticReleaseResult where
  lastRelease : String
  nextRelease : String
  deriving DecidableEq, Repr

/-- The chart files of the cloned helm repository that `_update_chart_files`
edits with `yq`: `Chart.yaml`'s `.version` and `.appVersion`, and
`values.yaml`'s `.image.tag` and `.ingress.host`.  `otherValues` stands for
every other key of the two files, to express that nothing else is touched. -/
structure ChartFiles where
  chartVersion : String
  appVersion : String
  imageTag : String
  ingressHost : String
  otherValues : String
  deriving DecidableEq, Repr

/-- Observable container side effects of a pipeline run. -/
inductive Effect where
  | oracleInvoked
  | imagePublished (ref : String)
  | chartMutated
  | chartCommitted
  | helmStep (name : String)
  deriving DecidableEq, Repr

/-- Exceptions that stages of `PipelineManager.run` can raise. -/
inductive PipelineError where
  | buildFailed
  | publishFailed
  | chartUpdateFailed
  | noneTagsTypeError
  deriving DecidableEq, Repr

/-- Inputs of one `PipelineManager.run` invocation: the function arguments,
the environment's clock (`datetime.now()` as a stream of (date string, unix
timestamp) pairs indexed by call count), the content the oracle and the helm
repository will provide, and fault-injection switches saying whether each
fallible container operation succeeds. -/
structure RunInput where
  githubToken : Option String
  branch : String
  commitHash : String
  registryPath : String
  oracle : SemanticReleaseResult
  chart : ChartFiles
  clock : Nat → String × Nat
  buildOk : Bool
  publishOk : Bool
  chartOk : Bool
  helmFailAt : Option Nat

/-- Mutable attributes of the `PipelineManager` object, plus the clock call
counter and the trace of container effects. -/
structure PMState where
  environment : Environment
  version : Option String
  tags : Option (List String)
  currentDateTimestamp : Option String
  chart : ChartFiles
  clockCalls : Nat
  trace : List Effect
  deriving DecidableEq, Repr

/-- Object defaults of `PipelineManager` (`environment = NONE`,
`version = None`, `tags = None`) at the start of `run`. -/
def initState (inp : RunInput) : PMState :=
  { environment := Environment.none
    version := Option.none
    tags := Option.none
    currentDateTimestamp := Option.none
    chart := inp.chart
    clockCalls := 0
    trace := [] }

/-- Embeds `_check_if_ci`: sets the environment to `CI` when `github_token`
is not `None`, else to `LOCAL`. -/
def check_if_ci (inp : RunInput) (s : PMState) : PMState :=
  if inp.githubToken.isSome then
    { s with environment := Environment.ci }
  else
    { s with environment := Environment.local }

/-- Embeds `_check_if_review`: sets the environment to `LATEST_OR_STABLE`
when the branch is `MAIN_BRANCH` (`"main"`), else to `REVIEW`.  Note the
method does not consult the previous environment value. -/
def check_if_review (inp : RunInput) (s : PMState) : PMState :=
  if inp.branch = "main" then
    { s with environment := Environment.latestOrStable }
  else
    { s with environment := Environment.review }

/-- Embeds `_build_docker_image`: the docker build either succeeds or raises
(the method catches, prints and re-raises, so the exception propagates). -/
def build_docker_image (inp : RunInput) (s : PMState) : Except PipelineError PMState :=
  if inp.buildOk then .ok s else .error PipelineError.buildFailed

/-- Embeds `run_semantic_release`: only when the environment is
`LATEST_OR_STABLE` the semantic-release oracle is invoked; a truthy (non-empty)
`next_release` yields `STABLE` with that version, otherwise `LATEST` with
`last_release`. -/
def run_semantic_release (inp : RunInput) (s : PMState) : PMState :=
  if s.environment = Environment.latestOrStable then
    let r := inp.oracle
    if r.nextRelease ≠ "" then
      { s with trace := s.trace ++ [Effect.oracleInvoked]
               environment := Environment.stable
               version := some r.nextRelease }
    else
      { s with trace := s.trace ++ [Effect.oracleInvoked]
               environment := Environment.latest
               version := some r.lastRelease }
  else s

/-- Embeds `_create_tag`: samples `datetime.now()` once, stores
`current_date_timestamp = f"{date}.{timestamp}"`, then builds the tag list for
`STABLE`, `LATEST` and `REVIEW`; any other environment leaves `self.tags`
unchanged (the `self.tags = []` fallback in the source is commented out).
`self.version` — always a string by the time the `STABLE`/`LATEST` branches
run, since `run_semantic_release` has set it — is read via `Option.getD`. -/
def create_tag (inp : RunInput) (s : PMState) : PMState :=
  let dc := inp.clock s.clockCalls
  let dts := dc.1 ++ "." ++ toString dc.2
  let s := { s with clockCalls := s.clockCalls + 1, currentDateTimestamp := some dts }
  match s.environment with
  | Environment.stable =>
      { s with tags := some [s.version.getD "", Environment.stable.value, Environment.latest.value] }
  | Environment.latest =>
      { s with tags := some [s.version.getD "" ++ "-" ++ inp.commitHash ++ "." ++ dts,
                             Environment.latest.value] }
  | Environment.review =>
      { s with tags := some ["review-" ++ inp.branch ++ "-" ++ inp.commitHash ++ "." ++ dts] }
  | _ => s

/-- Embeds `_publish_docker_image`: iterates over `self.tags`, publishing
`f"{registry_path}:{tag}"` for each tag.  Iterating over `None` raises a
`TypeError`; any registry failure propagates. -/
def publish_docker_image (inp : RunInput) (s : PMState) : Except PipelineError PMState :=
  match s.tags with
  | Option.none => .error PipelineError.noneTagsTypeError
  | some ts =>
      if inp.publishOk then
        .ok { s with trace := s.trace ++
                ts.map (fun t => Effect.imagePublished (inp.registryPath ++ ":" ++ t)) }
      else .error PipelineError.publishFailed

/-- Embeds `re.match(r"(\d+)-", branch)` in `_update_chart_files`: the match
succeeds exactly when the branch starts with a non-empty maximal run of digits
followed by a literal `-`; the captured group is that digit run. -/
def issueNum? (branch : String) : Option String :=
  let ds := branch.data.takeWhile Char.isDigit
  match ds, branch.data.drop ds.length with
  | d :: rest, '-' :: _ => some (String.mk (d :: rest))
  | _, _ => Option.none

/-- The `version_suffix` chosen by `_update_chart_files` in the `REVIEW`
environment. -/
def version_suffix (branch : String) : String :=
  match issueNum? branch with
  | some n => "issue-" ++ n
  | Option.none => "review-" ++ branch

/-- The `review_prefix` chosen by `_update_chart_files` in the `REVIEW`
environment. -/
def review_pfx (branch : String) : String :=
  match issueNum? branch with
  | some n => "issue-" ++ n ++ "-"
  | Option.none => "review-" ++ branch ++ "-"

/-- The `yq` edits of `_update_chart_files`: set `.version` and `.appVersion`
of `Chart.yaml` and `.image.tag` of `values.yaml` to the new version; when a
host prefix is to be applied (`LATEST`/`REVIEW`), `.ingress.host |= pfx + .`
prepends it to the existing value.  Every other key is untouched. -/
def applyChartEdits (nv : String) (hostPfx : Option String) (cf : ChartFiles) : ChartFiles :=
  { chartVersion := nv
    appVersion := nv
    imageTag := nv
    ingressHost :=
      match hostPfx with
      | some p => p ++ cf.ingressHost
      | Option.none => cf.ingressHost
    otherValues := cf.otherValues }

/-- Embeds `_update_chart_files`: reads the current chart version, derives the
new version and host prefix per environment (`REVIEW`, `LATEST`, `STABLE`;
anything else returns without touching the chart), applies the `yq` edits, and
commits and pushes only for `STABLE`.  The injected `chartOk` switch stands for
the container operations failing.  In the `STABLE` branch `self.version` (set
earlier by `run_semantic_release`) is read via `Option.getD`. -/
def update_chart_files (inp : RunInput) (s : PMState) : Except PipelineError PMState :=
  let currentVersion := s.chart.chartVersion
  match s.environment with
  | Environment.review =>
      if inp.chartOk then
        let nv := currentVersion ++ "-" ++ version_suffix inp.branch ++ "-" ++
                  inp.commitHash ++ "." ++ s.currentDateTimestamp.getD ""
        .ok { s with version := some nv
                     chart := applyChartEdits nv (some (review_pfx inp.branch)) s.chart
                     trace := s.trace ++ [Effect.chartMutated] }
      else .error PipelineError.chartUpdateFailed
  | Environment.latest =>
      if inp.chartOk then
        let nv := currentVersion ++ "-latest-" ++ inp.commitHash ++ "." ++
                  s.currentDateTimestamp.getD ""
        .ok { s with version := some nv
                     chart := applyChartEdits nv (some "latest-") s.chart
                     trace := s.trace ++ [Effect.chartMutated] }
      else .error PipelineError.chartUpdateFailed
  | Environment.stable =>
      if inp.chartOk then
        .ok { s with chart := applyChartEdits (s.version.getD "") Option.none s.chart
                     trace := s.trace ++ [Effect.chartMutated, Effect.chartCommitted] }
      else .error PipelineError.chartUpdateFailed
  | _ => .ok s

/-- The sub-steps of `HelmOciRelease.run`, in order. -/
def helmOciSteps : List String :=
  ["prepare_base_container", "add_source_directory", "set_workdir",
   "add_ghcr_password_secret", "helm_login", "helm_package",
   "helm_list_contents", "helm_push"]

/-- The `try` block of `HelmOciRelease.run`: the steps run in order; when step
`i` raises, the steps after it are skipped and the exception reaches the
`except` clause carrying the list of steps already executed. -/
def helmOciTry (failAt : Option Nat) : Except (List String) (List String) :=
  match failAt with
  | Option.none => .ok helmOciSteps
  | some i =>
      if i < helmOciSteps.length then .error (helmOciSteps.take i)
      else .ok helmOciSteps

/-- Outcome of a `HelmOciRelease.run` call: which sub-steps executed, and
whether the call raised to its caller. -/
structure HelmOciOutcome where
  executed : List String
  raised : Bool
  deriving DecidableEq, Repr

/-- Embeds `HelmOciRelease.run`: the `except Exception` clause prints
`"[ERROR] Pipeline failed"` and falls through without re-raising, so the
method returns normally on both paths. -/
def helmOciRun (failAt : Option Nat) : HelmOciOutcome :=
  match helmOciTry failAt with
  | .ok steps => { executed := steps, raised := false }
  | .error steps => { executed := steps, raised := false }

/-- Embeds `_push_helm_oci_release`: delegates to `HelmOciRelease.run`, whose
executed sub-steps join the trace; since that method never re-raises, this
stage always returns normally. -/
def push_helm_oci_release (inp : RunInput) (s : PMState) : PMState :=
  { s with trace := s.trace ++ (helmOciRun inp.helmFailAt).executed.map Effect.helmStep }

/-- Embeds `PipelineManager.run`: the nine steps in source order
(`unit_tests` is an empty placeholder), with an uncaught exception aborting
the rest of the sequence. -/
def pipelineRun (inp : RunInput) : PMState × Option PipelineError :=
  let s := initState inp
  let s := check_if_ci inp s
  match build_docker_image inp s with
  | .error e => (s, some e)
  | .ok s =>
    let s := check_if_review inp s
    let s := run_semantic_release inp s
    let s := create_tag inp s
    match publish_docker_image inp s with
    | .error e => (s, some e)
    | .ok s =>
      match update_chart_files inp s with
      | .error e => (s, some e)
      | .ok s => (push_helm_oci_release inp s, Option.none)

/-- Embeds Python's `str.strip()` (no argument): remove leading and trailing
whitespace characters. -/
def pyStrip (cs : List Char) : List Char :=
  ((cs.dropWhile Char.isWhitespace).reverse.dropWhile Char.isWhitespace).reverse

/-- Embeds Python's `str.split(sep)` for a one-character separator: split at
every occurrence of the separator, keeping empty pieces (`"".split(".")` is
`[""]`). -/
def pySplit (sep : Char) : List Char → List (List Char)
  | [] => [[]]
  | c :: rest =>
      if c = sep then [] :: pySplit sep rest
      else
        match pySplit sep rest with
        | [] => [[c]]
        | w :: ws => (c :: w) :: ws

/-- Embeds `version.strip().split(".")` from `_increment_patch_version`. -/
def stripSplitDots (s : String) : List String :=
  (pySplit '.' (pyStrip s.data)).map (fun w => String.mk w)

/-- Digit-run part of Python's `int(str)` grammar after the optional sign:
a non-empty sequence of ASCII digits in which single underscores may appear
between two digits (`1_0` is 10; leading, trailing or doubled underscores are
rejected).  Returns the numeric value. -/
def pyDigits? : List Char → Option Nat
  | [] => Option.none
  | c :: rest =>
      if c.isDigit then pyDigitsGo (c.toNat - 48) rest else Option.none
where
  pyDigitsGo (acc : Nat) : List Char → Option Nat
    | [] => some acc
    | '_' :: d :: rest =>
        if d.isDigit then pyDigitsGo (acc * 10 + (d.toNat - 48)) rest else Option.none
    | '_' :: [] => Option.none
    | d :: rest =>
        if d.isDigit then pyDigitsGo (acc * 10 + (d.toNat - 48)) rest else Option.none

/-- Embeds Python's `int(str)` conversion (ASCII form): surrounding whitespace
is ignored, then an optional single `+`/`-` sign, then `pyDigits?`.  `none`
models the `ValueError` that `int` raises on any other shape. -/
def pyInt? (s : String) : Option Int :=
  match pyStrip s.data with
  | '+' :: rest => (pyDigits? rest).map (fun n => (n : Int))
  | '-' :: rest => (pyDigits? rest).map (fun n => -(n : Int))
  | cs => (pyDigits? cs).map (fun n => (n : Int))

/-- Embeds `ChartUpdater._increment_patch_version`
(`chart_updater/main.py`): strip the input, split on `.`; with exactly three
parts, unpack them and return `f"{major}.{minor}.{int(patch) + 1}"` — the
first two parts pass through unvalidated and only the third goes through
`int` (whose failure is a `ValueError`); any other number of parts raises
`ValueError` directly. -/
def increment_patch_version (version : String) : Except String String :=
  match stripSplitDots version with
  | [major, minor, patch] =>
      match pyInt? patch with
      | some n => .ok (major ++ "." ++ minor ++ "." ++ toString (n + 1))
      | Option.none => .error ("invalid literal for int() with base 10: " ++ patch)
  | _ => .error ("Invalid version format: " ++ version)

/-- Characters allowed in a container-registry tag: `[a-zA-Z0-9_.-]`. -/
def isTagChar (c : Char) : Bool :=
  c.isAlphanum || c = '_' || c = '.' || c = '-'

/-- Container-registry tag syntax from the spec: non-empty, at most 128
characters, all drawn from `[a-zA-Z0-9_.-]`. -/
def isValidRegistryTag (t : String) : Prop :=
  t.data ≠ [] ∧ t.data.length ≤ 128 ∧ t.data.all isTagChar = true

instance (t : String) : Decidable (isValidRegistryTag t) := by
  unfold isValidRegistryTag
  infer_instance

/-- A concrete helm-repository chart content used by witnesses. -/
def sampleChart : ChartFiles :=
  { chartVersion := "1.2.3"
    appVersion := "1.2.3"
    imageTag := "1.2.3"
    ingressHost := "app.example.ca"
    otherValues := "untouched" }

/-- A concrete clock whose readings differ from call to call, so that a
single-sampling result is visible as the absence of drift. -/
def sampleClock : Nat → String × Nat :=
  fun n => ("2025-06-0" ++ toString (n + 1), 1749000000 + n)

/-- A baseline fully-healthy run input (credential present, review branch). -/
def sampleInput : RunInput :=
  { githubToken := some "ghp_token"
    branch := "feature-a"
    commitHash := "abc1234"
    registryPath := "ghcr.io/bcit-ltc/app"
    oracle := { lastRelease := "1.2.3", nextRelease := "" }
    chart := sampleChart
    clock := sampleClock
    buildOk := true
    publishOk := true
    chartOk := true
    helmFailAt := Option.none }

/-- Input for claim C4's witness: oracle with a non-empty `next_release`. -/
def c4In : RunInput :=
  { sampleInput with oracle := { lastRelease := "1.2.3", nextRelease := "1.3.0" } }

/-- State for claim C4's witness: a run that has reached `LATEST_OR_STABLE`. -/
def c4State : PMState :=
  { initState c4In with environment := Environment.latestOrStable }

/-- Claim C4: in state `LatestOrStable`, `run_semantic_release` turns a
non-empty `next_release` into environment `Stable` with `version =
next_release`, and an empty one into `Latest` with `version = last_release`. -/
theorem c4_latest_or_stable_resolution (inp : RunInput) (s : PMState)
    (h : s.environment = Environment.latestOrStable) :
    (inp.oracle.nextRelease ≠ "" →
      (run_semantic_release inp s).environment = Environment.stable ∧
      (run_semantic_release inp s).version = some inp.oracle.nextRelease) ∧
    (inp.oracle.nextRelease = "" →
      (run_semantic_release inp s).environment = Environment.latest ∧
      (run_semantic_release inp s).version = some inp.oracle.lastRelease) := by
  constructor <;> intro hn <;> simp [run_semantic_release, h, hn]

/-- Witness for C4: the oracle result `{last_release: "1.2.3", next_release:
"1.3.0"}` yields environment `Stable` and version `"1.3.0"`. -/
theorem c4_latest_or_stable_resolution_witness :
    (run_semantic_release c4In c4State).environment = Environment.stable ∧
    (run_semantic_release c4In c4State).version = some "1.3.0" :=
  (c4_latest_or_stable_resolution c4In c4State rfl).1 (by decide)

/-- Claim C5: `_create_tag` produces exactly `[version, "stable", "latest"]`
for `Stable` (so the first tag is the version itself),
`["{version}-{commit}.{date}.{ts}", "latest"]` for `Latest`, and
`["review-{branch}-{commit}.{date}.{ts}"]` for `Review`. -/
theorem c5_tag_lists (inp : RunInput) (s : PMState) (v : String)
    (hv : s.version = some v) :
    (s.environment = Environment.stable →
      (create_tag inp s).tags = some [v, "stable", "latest"] ∧
      ((create_tag inp s).tags.getD []).head? = some v) ∧
    (s.environment = Environment.latest →
      (create_tag inp s).tags =
        some [v ++ "-" ++ inp.commitHash ++ "." ++
                ((inp.clock s.clockCalls).1 ++ "." ++ toString (inp.clock s.clockCalls).2),
              "latest"]) ∧
    (s.environment = Environment.review →
      (create_tag inp s).tags =
        some ["review-" ++ inp.branch ++ "-" ++ inp.commitHash ++ "." ++
                ((inp.clock s.clockCalls).1 ++ "." ++ toString (inp.clock s.clockCalls).2)]) := by
  refine ⟨?_, ?_, ?_⟩ <;> intro he <;>
    simp [create_tag, he, hv, Environment.value]

/-- Witness for C5: in a concrete `Stable` state with version `"1.3.0"` the
tags are `["1.3.0", "stable", "latest"]`, headed by the version. -/
theorem c5_tag_lists_witness :
    (create_tag sampleInput { initState sampleInput with
        environment := Environment.stable, version := some "1.3.0" }).tags =
      some ["1.3.0", "stable", "latest"] ∧
    (((create_tag sampleInput { initState sampleInput with
        environment := Environment.stable, version := some "1.3.0" }).tags).getD []).head? =
      some "1.3.0" :=
  (c5_tag_lists sampleInput { initState sampleInput with
      environment := Environment.stable, version := some "1.3.0" } "1.3.0" rfl).1 rfl

/-- Input for claim C7's theorem: a review branch containing a slash. -/
def c7In : RunInput := { sampleInput with branch := "feature/x" }

/-- Claim C7 (code bug): `_create_tag` substitutes the branch name into the
review tag without replacing `/`, so the produced tag violates the
container-registry tag syntax `[a-zA-Z0-9_.-]+`. -/
theorem c7_unsanitized_branch_tag :
    (pipelineRun c7In).1.tags =
      some ["review-feature/x-abc1234.2025-06-01.1749000000"] ∧
    ¬ isValidRegistryTag "review-feature/x-abc1234.2025-06-01.1749000000" := by
  constructor
  · decide
  · decide

/-- Claim C10: `_increment_patch_version` succeeds exactly on inputs whose
stripped form splits on `.` into three parts with an `int`-parseable third
part, returning the first two parts unvalidated and the third incremented;
everything else is a `ValueError`. -/
theorem c10_increment_patch (s : String) :
    (∀ a b c n, stripSplitDots s = [a, b, c] → pyInt? c = some n →
        increment_patch_version s = .ok (a ++ "." ++ b ++ "." ++ toString (n + 1))) ∧
    (∀ a b c, stripSplitDots s = [a, b, c] → pyInt? c = Option.none →
        ∃ e, increment_patch_version s = .error e) ∧
    ((stripSplitDots s).length ≠ 3 →
        ∃ e, increment_patch_version s = .error e) := by
  refine ⟨?_, ?_, ?_⟩
  · intro a b c n h hn
    simp [increment_patch_version, h, hn]
  · intro a b c h hn
    simp [increment_patch_version, h, hn]
  · intro h
    rcases hp : stripSplitDots s with _ | ⟨a, _ | ⟨b, _ | ⟨c, _ | ⟨d, tl⟩⟩⟩⟩
    · simp [increment_patch_version, hp]
    · simp [increment_patch_version, hp]
    · simp [increment_patch_version, hp]
    · exact absurd (by simp [hp]) h
    · simp [increment_patch_version, hp]

/-- Witness for C10: `"1.2.3"` increments to `"1.2.4"`, a non-numeric major
part passes through (`"x.y.7"` to `"x.y.8"`), and a non-integer patch part or
a wrong number of parts raises. -/
theorem c10_increment_patch_witness :
    increment_patch_version "1.2.3" = .ok "1.2.4" ∧
    increment_patch_version "x.y.7" = .ok "x.y.8" ∧
    (∃ e, increment_patch_version "1.2.x" = .error e) ∧
    (∃ e, increment_patch_version "1.2.3.4" = .error e) :=
  ⟨(c10_increment_patch "1.2.3").1 "1" "2" "3" 3 (by decide) (by decide),
   (c10_increment_patch "x.y.7").1 "x" "y" "7" 7 (by decide) (by decide),
   (c10_increment_patch "1.2.x").2.1 "1" "2" "x" (by decide) (by decide),
   (c10_increment_patch "1.2.3.4").2.2 (by decide)⟩

/-- Input for claim C6's witness: a review branch with an issue-number head. -/
def c6In : RunInput := { sampleInput with branch := "42-fix-login" }

/-- State for claim C6's witness: a `Review` run after `_create_tag`. -/
def c6State : PMState :=
  { initState c6In with
      environment := Environment.review
      currentDateTimestamp := some "2025-06-01.1749000000" }

/-- Claim C6: in the `Review` environment, a branch matching `^(\d+)-` gives
`suffix = "issue-{N}"` and `host_prefix = "issue-{N}-"`, any other branch
gives `suffix = "review-{branch}"` and `host_prefix = "review-{branch}-"`,
and the new chart version is
`"{current_chart_version}-{suffix}-{commit_hash}.{date_timestamp}"`. -/
theorem c6_review_version_suffix (inp : RunInput) (s : PMState) (d : String)
    (henv : s.environment = Environment.review) (hok : inp.chartOk = true)
    (hd : s.currentDateTimestamp = some d) :
    (∀ n, issueNum? inp.branch = some n →
        version_suffix inp.branch = "issue-" ++ n ∧
        review_pfx inp.branch = "issue-" ++ n ++ "-") ∧
    (issueNum? inp.branch = Option.none →
        version_suffix inp.branch = "review-" ++ inp.branch ∧
        review_pfx inp.branch = "review-" ++ inp.branch ++ "-") ∧
    (∃ s', update_chart_files inp s = .ok s' ∧
        s'.version = some (s.chart.chartVersion ++ "-" ++ version_suffix inp.branch ++
                           "-" ++ inp.commitHash ++ "." ++ d)) := by
  refine ⟨?_, ?_, ?_⟩
  · intro n hn
    simp [version_suffix, review_pfx, hn]
  · intro hn
    simp [version_suffix, review_pfx, hn]
  · simp [update_chart_files, henv, hok, hd]

/-- Witness for C6: branch `"42-fix-login"` gives suffix `"issue-42"`, host
prefix `"issue-42-"`, and the chart version
`"1.2.3-issue-42-abc1234.2025-06-01.1749000000"`. -/
theorem c6_review_version_suffix_witness :
    (version_suffix "42-fix-login" = "issue-42" ∧
     review_pfx "42-fix-login" = "issue-42-") ∧
    (∃ s', update_chart_files c6In c6State = .ok s' ∧
        s'.version = some "1.2.3-issue-42-abc1234.2025-06-01.1749000000") := by
  have h := c6_review_version_suffix c6In c6State "2025-06-01.1749000000" rfl rfl rfl
  exact ⟨h.1 "42" (by decide), h.2.2⟩

/-- Claim C8: `_update_chart_files` applies a host prefix only for
`Review`/`Latest`, by prepending to the existing `ingress.host` value (the old
value is kept as a suffix); for `Stable` the host value is untouched; in all
three cases the only other mutated fields are `Chart.yaml`'s
`version`/`appVersion` and the values-file `image.tag` (everything else in
the chart files is unchanged). -/
theorem c8_host_prefix_frame (inp : RunInput) (s : PMState)
    (hok : inp.chartOk = true) :
    (s.environment = Environment.review →
      ∃ s', update_chart_files inp s = .ok s' ∧
        s'.chart.ingressHost = review_pfx inp.branch ++ s.chart.ingressHost ∧
        s'.chart.otherValues = s.chart.otherValues ∧
        s'.chart.chartVersion = s'.version.getD "" ∧
        s'.chart.appVersion = s'.version.getD "" ∧
        s'.chart.imageTag = s'.version.getD "") ∧
    (s.environment = Environment.latest →
      ∃ s', update_chart_files inp s = .ok s' ∧
        s'.chart.ingressHost = "latest-" ++ s.chart.ingressHost ∧
        s'.chart.otherValues = s.chart.otherValues ∧
        s'.chart.chartVersion = s'.version.getD "" ∧
        s'.chart.appVersion = s'.version.getD "" ∧
        s'.chart.imageTag = s'.version.getD "") ∧
    (s.environment = Environment.stable →
      ∃ s', update_chart_files inp s = .ok s' ∧
        s'.chart.ingressHost = s.chart.ingressHost ∧
        s'.chart.otherValues = s.chart.otherValues ∧
        s'.chart.chartVersion = s.version.getD "" ∧
        s'.chart.appVersion = s.version.getD "" ∧
        s'.chart.imageTag = s.version.getD "") := by
  refine ⟨?_, ?_, ?_⟩ <;> intro henv <;>
    simp [update_chart_files, henv, hok, applyChartEdits]

/-- Witness for C8: on a concrete `Latest` state the ingress host becomes
`"latest-app.example.ca"`, keeping the old host as a suffix, and the other
values are untouched. -/
theorem c8_host_prefix_frame_witness :
    ∃ s', update_chart_files sampleInput
        { initState sampleInput with environment := Environment.latest } = .ok s' ∧
      s'.chart.ingressHost = "latest-" ++ "app.example.ca" ∧
      s'.chart.otherValues = "untouched" ∧
      s'.chart.chartVersion = s'.version.getD "" ∧
      s'.chart.appVersion = s'.version.getD "" ∧
      s'.chart.imageTag = s'.version.getD "" :=
  (c8_host_prefix_frame sampleInput
      { initState sampleInput with environment := Environment.latest } rfl).2.1 rfl

/-- Input for claim C1: no CI credential, on the `main` branch. -/
def c1In : RunInput := { sampleInput with githubToken := Option.none, branch := "main" }

/-- Claim C1 counterexample: in a run without a credential on branch `"main"`,
the semantic-release oracle is invoked and the final environment is not
`Local` — `Local` is not terminal. -/
theorem c1_counterexample :
    Effect.oracleInvoked ∈ (pipelineRun c1In).1.trace ∧
    (pipelineRun c1In).1.environment ≠ Environment.local := by
  decide

/-- Claim C1 amended: `_check_if_ci` does set `Local` when the credential is
absent, but `_check_if_review` then runs unconditionally and overwrites it
(`LatestOrStable` on `main`, `Review` otherwise), so the oracle is invoked
exactly when the branch is `"main"` and the final environment is never
`Local`. -/
theorem c1_local_not_terminal (inp : RunInput)
    (hTok : inp.githubToken = Option.none) (hBuild : inp.buildOk = true) :
    (check_if_ci inp (initState inp)).environment = Environment.local ∧
    (check_if_review inp (check_if_ci inp (initState inp))).environment =
      (if inp.branch = "main" then Environment.latestOrStable else Environment.review) ∧
    (Effect.oracleInvoked ∈ (pipelineRun inp).1.trace ↔ inp.branch = "main") ∧
    (pipelineRun inp).1.environment ≠ Environment.local := by
  by_cases hb : inp.branch = "main" <;>
  by_cases hn : inp.oracle.nextRelease = "" <;>
  cases hp : inp.publishOk <;>
  cases hc : inp.chartOk <;>
    simp [pipelineRun, initState, check_if_ci, check_if_review, build_docker_image,
          run_semantic_release, create_tag, publish_docker_image, update_chart_files,
          push_helm_oci_release, applyChartEdits, helmOciRun, helmOciTry,
          hTok, hBuild, hb, hn, hp, hc]

/-- Witness for the amended C1 at a concrete credential-less `main` run. -/
theorem c1_local_not_terminal_witness :
    (check_if_ci c1In (initState c1In)).environment = Environment.local ∧
    (check_if_review c1In (check_if_ci c1In (initState c1In))).environment =
      (if c1In.branch = "main" then Environment.latestOrStable else Environment.review) ∧
    (Effect.oracleInvoked ∈ (pipelineRun c1In).1.trace ↔ c1In.branch = "main") ∧
    (pipelineRun c1In).1.environment ≠ Environment.local :=
  c1_local_not_terminal c1In rfl rfl

/-- Input for claim C2: every container stage is healthy except that
`helm_package` (index 5 of `HelmOciRelease.run`) raises. -/
def c2In : RunInput := { sampleInput with helmFailAt := some 5 }

/-- Claim C2 counterexample: a failure inside `HelmOciRelease.run` is caught
by its `except` clause and the call returns normally — the pipeline reports
overall success (`none` error) even though the helm chart was never pushed
(steps after `helm_package` were skipped). -/
theorem c2_counterexample :
    (∃ steps, helmOciTry (some 5) = .error steps) ∧
    (helmOciRun (some 5)).raised = false ∧
    (helmOciRun (some 5)).executed ≠ helmOciSteps ∧
    Effect.helmStep "helm_push" ∉ (pipelineRun c2In).1.trace ∧
    (pipelineRun c2In).2 = Option.none := by
  refine ⟨⟨helmOciSteps.take 5, rfl⟩, rfl, by decide, by decide, rfl⟩

/-- Claim C2 amended: inside `PipelineManager.run` exceptions do propagate and
abort the remaining stages — a failed image publish aborts the run with that
error and no chart mutation, chart commit, or helm-release step executes —
but `HelmOciRelease.run` catches every exception of its stages and returns
normally, so errors raised there are swallowed and treated as success. -/
theorem c2_error_propagation (inp : RunInput)
    (hBuild : inp.buildOk = true) (hPub : inp.publishOk = false) :
    ((pipelineRun inp).2 = some PipelineError.publishFailed ∧
     Effect.chartMutated ∉ (pipelineRun inp).1.trace ∧
     Effect.chartCommitted ∉ (pipelineRun inp).1.trace ∧
     ∀ n, Effect.helmStep n ∉ (pipelineRun inp).1.trace) ∧
    (∀ i, (helmOciRun i).raised = false) := by
  constructor
  · by_cases hb : inp.branch = "main" <;>
    by_cases hn : inp.oracle.nextRelease = "" <;>
    by_cases hTok : inp.githubToken.isSome <;>
      simp [pipelineRun, initState, check_if_ci, check_if_review, build_docker_image,
            run_semantic_release, create_tag, publish_docker_image,
            hBuild, hPub, hb, hn, hTok]
  · intro i
    unfold helmOciRun
    cases h : helmOciTry i <;> simp

/-- Witness for the amended C2: a concrete run whose image publish fails. -/
theorem c2_error_propagation_witness :
    ((pipelineRun { sampleInput with publishOk := false }).2 =
        some PipelineError.publishFailed ∧
     Effect.chartMutated ∉ (pipelineRun { sampleInput with publishOk := false }).1.trace ∧
     Effect.chartCommitted ∉ (pipelineRun { sampleInput with publishOk := false }).1.trace ∧
     ∀ n, Effect.helmStep n ∉ (pipelineRun { sampleInput with publishOk := false }).1.trace) ∧
    (∀ i, (helmOciRun i).raised = false) :=
  c2_error_propagation { sampleInput with publishOk := false } rfl rfl

/-- Input for claim C3: no CI credential on a feature branch. -/
def c3In : RunInput := { sampleInput with githubToken := Option.none }

/-- Claim C3 counterexample: with no credential and branch `"feature-a"`, the
tag list is a non-empty review tag list (not `[]`), the image publish step
runs over it, and a chart mutation is attempted. -/
theorem c3_counterexample :
    (pipelineRun c3In).1.tags ≠ some [] ∧
    (pipelineRun c3In).1.tags =
      some ["review-feature-a-abc1234.2025-06-01.1749000000"] ∧
    Effect.imagePublished
        "ghcr.io/bcit-ltc/app:review-feature-a-abc1234.2025-06-01.1749000000" ∈
      (pipelineRun c3In).1.trace ∧
    Effect.chartMutated ∈ (pipelineRun c3In).1.trace := by
  decide

/-- Claim C3 amended: a credential-less run on a non-`main` branch is treated
as a full `Review` run: it produces the singleton review tag list, publishes
the image under that tag, attempts the review chart mutation, and completes
without error. -/
theorem c3_local_runs_as_review (inp : RunInput)
    (hTok : inp.githubToken = Option.none) (hBr : inp.branch ≠ "main")
    (hBuild : inp.buildOk = true) (hPub : inp.publishOk = true)
    (hChart : inp.chartOk = true) :
    (pipelineRun inp).1.tags =
      some ["review-" ++ inp.branch ++ "-" ++ inp.commitHash ++ "." ++
              ((inp.clock 0).1 ++ "." ++ toString (inp.clock 0).2)] ∧
    Effect.imagePublished
        (inp.registryPath ++ ":" ++
          ("review-" ++ inp.branch ++ "-" ++ inp.commitHash ++ "." ++
            ((inp.clock 0).1 ++ "." ++ toString (inp.clock 0).2))) ∈
      (pipelineRun inp).1.trace ∧
    Effect.chartMutated ∈ (pipelineRun inp).1.trace ∧
    (pipelineRun inp).2 = Option.none := by
  simp [pipelineRun, initState, check_if_ci, check_if_review, build_docker_image,
        run_semantic_release, create_tag, publish_docker_image, update_chart_files,
        push_helm_oci_release, applyChartEdits,
        hTok, hBr, hBuild, hPub, hChart]

/-- Witness for the amended C3 at the concrete credential-less review input. -/
theorem c3_local_runs_as_review_witness :
    (pipelineRun c3In).1.tags =
      some ["review-" ++ c3In.branch ++ "-" ++ c3In.commitHash ++ "." ++
              ((c3In.clock 0).1 ++ "." ++ toString (c3In.clock 0).2)] ∧
    Effect.imagePublished
        (c3In.registryPath ++ ":" ++
          ("review-" ++ c3In.branch ++ "-" ++ c3In.commitHash ++ "." ++
            ((c3In.clock 0).1 ++ "." ++ toString (c3In.clock 0).2))) ∈
      (pipelineRun c3In).1.trace ∧
    Effect.chartMutated ∈ (pipelineRun c3In).1.trace ∧
    (pipelineRun c3In).2 = Option.none :=
  c3_local_runs_as_review c3In rfl (by decide) rfl rfl rfl

/-- Claim C9: `datetime.now()` is sampled exactly once per run (in
`_create_tag`), and the composite `{date}.{unix_timestamp}` suffix reused by
`_update_chart_files` is the very same string, so the timestamp portion of the
published tag always equals that of the derived chart version — in `Review`
and `Latest` runs both end in the clock's first reading even when later
readings would differ. -/
theorem c9_timestamp_reuse (inp : RunInput) (hBuild : inp.buildOk = true)
    (hPub : inp.publishOk = true) (hChart : inp.chartOk = true) :
    (pipelineRun inp).1.clockCalls = 1 ∧
    (inp.branch ≠ "main" →
      (pipelineRun inp).1.tags =
        some ["review-" ++ inp.branch ++ "-" ++ inp.commitHash ++ "." ++
                ((inp.clock 0).1 ++ "." ++ toString (inp.clock 0).2)] ∧
      (pipelineRun inp).1.version =
        some (inp.chart.chartVersion ++ "-" ++ version_suffix inp.branch ++ "-" ++
                inp.commitHash ++ "." ++
                ((inp.clock 0).1 ++ "." ++ toString (inp.clock 0).2))) ∧
    (inp.branch = "main" → inp.oracle.nextRelease = "" →
      (pipelineRun inp).1.tags =
        some [inp.oracle.lastRelease ++ "-" ++ inp.commitHash ++ "." ++
                ((inp.clock 0).1 ++ "." ++ toString (inp.clock 0).2),
              "latest"] ∧
      (pipelineRun inp).1.version =
        some (inp.chart.chartVersion ++ "-latest-" ++ inp.commitHash ++ "." ++
                ((inp.clock 0).1 ++ "." ++ toString (inp.clock 0).2))) := by
  by_cases hb : inp.branch = "main" <;>
  by_cases hn : inp.oracle.nextRelease = "" <;>
  by_cases hTok : inp.githubToken.isSome <;>
    simp [pipelineRun, initState, check_if_ci, check_if_review, build_docker_image,
          run_semantic_release, create_tag, publish_docker_image, update_chart_files,
          push_helm_oci_release, applyChartEdits, Environment.value,
          hBuild, hPub, hChart, hb, hn, hTok]

/-- Witness for C9: in the concrete review run both the tag and the chart
version end in the clock's first reading `2025-06-01.1749000000`. -/
theorem c9_timestamp_reuse_witness :
    (pipelineRun sampleInput).1.clockCalls = 1 ∧
    ((pipelineRun sampleInput).1.tags =
        some ["review-" ++ sampleInput.branch ++ "-" ++ sampleInput.commitHash ++ "." ++
                ((sampleInput.clock 0).1 ++ "." ++ toString (sampleInput.clock 0).2)] ∧
     (pipelineRun sampleInput).1.version =
        some (sampleInput.chart.chartVersion ++ "-" ++ version_suffix sampleInput.branch ++
                "-" ++ sampleInput.commitHash ++ "." ++
                ((sampleInput.clock 0).1 ++ "." ++ toString (sampleInput.clock 0).2))) :=
  have h := c9_timestamp_reuse sampleInput rfl rfl rfl
  ⟨h.1, h.2.1 (by decide)⟩
